import Mathlib

/-!
Shallow embedding of the shader dispatch cache of libplacebo
(`src/dispatch.c`), together with proofs about the claims of the
specification.  Machine integers are modelled as `Nat` with explicit
`% 2 ^ w` where wraparound matters (`uint8_t current_ident` and
`current_index`, the `uint32_t` entry count of the binary cache).
Byte buffers are `List Nat` whose elements are byte values.  Fallible
operations return `Option`; an out-of-bounds read of the input blob in
`pl_dispatch_load` (undefined behaviour in the C source) is modelled as
`Option.none`.
-/

/-- MAX_PASSES from dispatch.c: default capacity bound of the pass cache. -/
def MAX_PASSES : Nat := 100

/-- MIN_AGE from dispatch.c: passes younger than this many frames are not evicted. -/
def MIN_AGE : Nat := 10

/-- struct cached_pass: a previously loaded, not-yet-compiled program.
`cached_program_len` of the C struct is the length of `cached_program`. -/
structure CachedPass where
  signature : Nat
  cached_program : List Nat
deriving DecidableEq

/-- struct pass: a Compiled Pass Record.  `alive` models `pass->pass != NULL`
(the backend pass-create succeeded); `cached_program` models the bytes at
`pass->pass->params.cached_program` (empty when the backend emitted none).
`fmt`, `blend`, `load_target`, `vertex_type`, `vertex_stride` model the
raster-matching fields of `pass->pass->params` read by `find_pass`. -/
structure Pass where
  signature : Nat
  alive : Bool
  cached_program : List Nat
  last_index : Nat
  fmt : Nat
  blend : Option (Nat × Nat × Nat × Nat)
  load_target : Bool
  vertex_type : Nat
  vertex_stride : Nat
deriving DecidableEq

/-- struct pl_dispatch (the Dispatch Root).  `shaders` is the pool of
reusable accumulators, kept as abstract identities. -/
structure Dispatch where
  current_ident : Nat
  current_index : Nat
  max_passes : Nat
  shaders : List Nat
  passes : List Pass
  cached_passes : List CachedPass
deriving DecidableEq

/-- pl_dispatch_create: zero-initialised root with max_passes = MAX_PASSES. -/
def pl_dispatch_create : Dispatch :=
  { current_ident := 0, current_index := 0, max_passes := MAX_PASSES,
    shaders := [], passes := [], cached_passes := [] }

/-- pl_dispatch_begin_ex: returns the updated root and the `id` field of the
`pl_shader_params` handed to the returned accumulator
(`unique ? dp->current_ident++ : 0`; `current_ident` is a `uint8_t`, so the
post-increment wraps modulo 256).  The shader-pool pop
(`PL_ARRAY_POP(dp->shaders, &sh)`) and allocation are omitted here: they do
not influence the identity tag; the pool append side is modelled in
`pl_dispatch_abort`. -/
def pl_dispatch_begin_ex (dp : Dispatch) (unique : Bool) : Dispatch × Nat :=
  if unique then
    ({ dp with current_ident := (dp.current_ident + 1) % 256 }, dp.current_ident)
  else
    (dp, 0)

/-- pl_dispatch_reset_frame: clears the per-frame identity counter and
advances the frame index (`uint8_t`, wraps modulo 256). -/
def pl_dispatch_reset_frame (dp : Dispatch) : Dispatch :=
  { dp with current_ident := 0, current_index := (dp.current_index + 1) % 256 }

/-- The identity tag handed out by the (n+1)-st consecutive
`pl_dispatch_begin_ex dp true` call, with no frame reset in between. -/
def nth_unique_ident (dp : Dispatch) : Nat → Nat
  | 0 => (pl_dispatch_begin_ex dp true).2
  | n + 1 => nth_unique_ident (pl_dispatch_begin_ex dp true).1 n

/-- Applies pl_dispatch_reset_frame n times. -/
def reset_frames : Nat → Dispatch → Dispatch
  | 0, dp => dp
  | n + 1, dp => reset_frames n (pl_dispatch_reset_frame dp)

/-- pass_age macro: `dp->current_index - pass->last_index`, an `int`
subtraction (may be negative). -/
def pass_age (cur : Nat) (p : Pass) : Int := (cur : Int) - (p.last_index : Int)

/-- Whether a pass is younger than MIN_AGE at frame `cur`
(the predicate of the skip loop in garbage_collect_passes). -/
def pass_is_young (cur : Nat) (p : Pass) : Bool :=
  decide (pass_age cur p < (MIN_AGE : Int))

/-- Inserts a pass into a list kept in descending `last_index` order
(most recently used first), as produced by the qsort with cmp_pass_age
(`return b->last_index - a->last_index`). -/
def insert_pass (p : Pass) : List Pass → List Pass
  | [] => [p]
  | q :: rest =>
    if q.last_index ≤ p.last_index then p :: q :: rest else q :: insert_pass p rest

/-- Sorts the pass list in descending `last_index` order.  The C source uses
qsort with cmp_pass_age, whose permutation on ties is unspecified; any order
consistent with the comparator is a faithful model. -/
def sort_passes : List Pass → List Pass
  | [] => []
  | p :: rest => insert_pass p (sort_passes rest)

/-- The index the eviction scan of garbage_collect_passes stops at: the
midpoint of the sorted list, advanced past every pass younger than MIN_AGE
(`while (idx < num && pass_age(elem[idx]) < MIN_AGE) idx++`). -/
def gc_keep_index (cur : Nat) (sorted : List Pass) : Nat :=
  sorted.length / 2 +
    ((sorted.drop (sorted.length / 2)).takeWhile (pass_is_young cur)).length

/-- garbage_collect_passes: no-op unless the pass count exceeds max_passes;
otherwise sorts by age, keeps the first gc_keep_index records, destroys the
rest, and doubles max_passes when nothing was evicted. -/
def garbage_collect_passes (dp : Dispatch) : Dispatch :=
  if dp.passes.length ≤ dp.max_passes then dp
  else
    { dp with
      passes := (sort_passes dp.passes).take
        (gc_keep_index dp.current_index (sort_passes dp.passes)),
      max_passes :=
        if (sort_passes dp.passes).length ≤
            gc_keep_index dp.current_index (sort_passes dp.passes) then
          dp.max_passes * 2
        else dp.max_passes }

/-- The records destroyed by garbage_collect_passes (the tail of the sorted
list from the stop index on). -/
def gc_evicted (dp : Dispatch) : List Pass :=
  if dp.passes.length ≤ dp.max_passes then []
  else
    (sort_passes dp.passes).drop
      (gc_keep_index dp.current_index (sort_passes dp.passes))

/-- PL_SHADER_SIG_NONE. -/
def PL_SHADER_SIG_NONE : Nat := 0

/-- PL_SHADER_SIG_COLOR. -/
def PL_SHADER_SIG_COLOR : Nat := 1

/-- PL_PRIM_TRIANGLE_STRIP, the default vertex_type used by find_pass when no
custom vertex parameters are given. -/
def PL_PRIM_TRIANGLE_STRIP : Nat := 1

/-- The inputs of find_pass that determine matching and construction of a
pass record: the shader signature, whether the shader is a compute shader,
the raster keys (target format, blend parameters, load_target flag, optional
custom vertex parameters), and the backend oracle for this construction
(`create_ok` models whether `pl_pass_create` succeeds, `new_program` the
cached program blob it emits on success). -/
structure FindQuery where
  signature : Nat
  is_compute : Bool
  fmt : Nat
  blend : Option (Nat × Nat × Nat × Nat)
  load_target : Bool
  vparams : Option (Nat × Nat)
  create_ok : Bool
  new_program : List Nat
deriving DecidableEq

/-- The matching test of the scan loop in find_pass: signatures must agree;
a failed record (`!p->pass`) matches with no further checks; a compute query
needs nothing more; a raster query additionally compares target format,
blend parameters (field-wise, both-null equal), load_target, and — when
custom vertex parameters are given — vertex type and stride. -/
def pass_matches (q : FindQuery) (p : Pass) : Bool :=
  p.signature == q.signature &&
    (!p.alive ||
      (q.is_compute ||
        (p.fmt == q.fmt && p.blend == q.blend && p.load_target == q.load_target &&
          (match q.vparams with
           | Option.none => true
           | some (vt, vs) => p.vertex_type == vt && p.vertex_stride == vs))))

/-- The scan loop of find_pass: returns the first matching record with its
`last_index` bumped to the current frame, together with the updated list, or
Option.none when no record matches. -/
def find_pass_scan : List Pass → FindQuery → Nat → Option (Pass × List Pass)
  | [], _, _ => Option.none
  | p :: rest, q, cur =>
    if pass_matches q p then
      some ({ p with last_index := cur }, { p with last_index := cur } :: rest)
    else
      (find_pass_scan rest q cur).map (fun r => (r.1, p :: r.2))

/-- Removes the first cached_pass entry with the given signature
(PL_ARRAY_REMOVE_AT after the search loop in find_pass). -/
def remove_first_cached : List CachedPass → Nat → List CachedPass
  | [], _ => []
  | cp :: rest, sig =>
    if cp.signature == sig then rest else cp :: remove_first_cached rest sig

/-- The new pass record built on a cache miss.  On pl_pass_create failure the
record is kept with an empty pass handle (`alive = false`).  The implicit
quad's accumulated vertex_stride is not tracked (no claim depends on it). -/
def mk_new_pass (q : FindQuery) (cur : Nat) : Pass :=
  { signature := q.signature,
    alive := q.create_ok,
    cached_program := if q.create_ok then q.new_program else [],
    last_index := cur,
    fmt := q.fmt,
    blend := q.blend,
    load_target := q.load_target,
    vertex_type := match q.vparams with
      | Option.none => PL_PRIM_TRIANGLE_STRIP
      | some (vt, _) => vt,
    vertex_stride := match q.vparams with
      | Option.none => 0
      | some (_, vs) => vs }

/-- Result of find_pass: the updated root, the record returned to the
caller, and whether the record-construction path ran (which is when the
backend's pl_pass_create is invoked). -/
structure FindPassResult where
  dp : Dispatch
  pass : Pass
  created : Bool
deriving DecidableEq

/-- find_pass: scan the live records for a match; on a hit return it with
its last_used index bumped.  On a miss, consume any cached-program entry
with this signature, construct the record (variable placement and shader
generation are modelled elsewhere; the backend outcome comes from the
query's oracle fields), then — also on the error path — run
garbage_collect_passes on the pre-append state and append the new record. -/
def find_pass (dp : Dispatch) (q : FindQuery) : FindPassResult :=
  match find_pass_scan dp.passes q dp.current_index with
  | some r => { dp := { dp with passes := r.2 }, pass := r.1, created := false }
  | Option.none =>
    let dp1 := { dp with cached_passes := remove_first_cached dp.cached_passes q.signature }
    let pass := mk_new_pass q dp.current_index
    let dp2 := garbage_collect_passes dp1
    { dp := { dp2 with passes := dp2.passes ++ [pass] }, pass := pass, created := true }

/-! ### Binary cache I/O (pl_dispatch_save / pl_dispatch_load)

The on-disk layout is byte-exact (little-endian, as the x86 writers of the
repository produce): magic, u32 version, u32 entry count, then per entry a
u64 signature, u64 program length, and the raw program bytes. -/

/-- The little-endian bytes of a u32 value. -/
def le32 (n : Nat) : List Nat :=
  [n % 256, n / 256 % 256, n / 256 ^ 2 % 256, n / 256 ^ 3 % 256]

/-- The little-endian bytes of a u64 value. -/
def le64 (n : Nat) : List Nat :=
  [n % 256, n / 256 % 256, n / 256 ^ 2 % 256, n / 256 ^ 3 % 256,
   n / 256 ^ 4 % 256, n / 256 ^ 5 % 256, n / 256 ^ 6 % 256, n / 256 ^ 7 % 256]

/-- The value of a little-endian byte string. -/
def le_value : List Nat → Nat
  | [] => 0
  | b :: bs => b + 256 * le_value bs

/-- `n` bytes of the blob starting at `pos`; Option.none when the range runs
past the end of the blob (reading there is undefined behaviour in C). -/
def read_bytes (blob : List Nat) (pos n : Nat) : Option (List Nat) :=
  if pos + n ≤ blob.length then some ((blob.drop pos).take n) else Option.none

/-- A little-endian integer of `n` bytes read from the blob at `pos`. -/
def read_le (blob : List Nat) (pos n : Nat) : Option Nat :=
  (read_bytes blob pos n).map le_value

/-- cache_magic: the bytes 'P','L','D','P'. -/
def cache_magic : List Nat := [80, 76, 68, 80]

/-- cache_version. -/
def cache_version : Nat := 1

/-- The entry_count field written by pl_dispatch_save:
`WRITE(uint32_t, dp->passes.num + dp->cached_passes.num)`, an int sum stored
into a u32. -/
def save_count_field (dp : Dispatch) : Nat :=
  (dp.passes.length + dp.cached_passes.length) % 2 ^ 32

/-- One serialized entry: u64 signature, u64 length, program bytes. -/
def save_entry (sig : Nat) (prog : List Nat) : List Nat :=
  le64 sig ++ le64 prog.length ++ prog

/-- The entries pl_dispatch_save serializes for compiled passes: records
whose pass handle is live and whose backend pass exposes a non-empty cached
program (`if (!pass->pass) continue; if (!params->cached_program_len)
continue;`). -/
def save_live_entries (dp : Dispatch) : List (List Nat) :=
  (dp.passes.filter (fun p => p.alive && !p.cached_program.isEmpty)).map
    (fun p => save_entry p.signature p.cached_program)

/-- The entries pl_dispatch_save re-serializes for loaded but not yet
compiled passes (all of dp->cached_passes, unconditionally). -/
def save_cached_entries (dp : Dispatch) : List (List Nat) :=
  dp.cached_passes.map (fun cp => save_entry cp.signature cp.cached_program)

/-- The number of entries pl_dispatch_save actually serializes. -/
def save_num_entries (dp : Dispatch) : Nat :=
  (save_live_entries dp).length + (save_cached_entries dp).length

/-- pl_dispatch_save: magic, version, entry count field, then the live
entries followed by the cached entries. -/
def pl_dispatch_save (dp : Dispatch) : List Nat :=
  cache_magic ++ le32 cache_version ++ le32 (save_count_field dp) ++
    (save_live_entries dp).flatten ++ (save_cached_entries dp).flatten

/-- Replaces the program bytes of the first cached_pass entry with this
signature, or appends a fresh entry when none exists (the find-or-append
sequence of pl_dispatch_load). -/
def replace_first_cached : List CachedPass → Nat → List Nat → List CachedPass
  | [], sig, prog => [{ signature := sig, cached_program := prog }]
  | cp :: rest, sig, prog =>
    if cp.signature == sig then { cp with cached_program := prog } :: rest
    else cp :: replace_first_cached rest sig prog

/-- One entry of the pl_dispatch_load loop, as the C source executes it.
The `continue` under the already-compiled-signature check targets the INNER
loop over dp->passes, so a signature hit advances the read cursor (once per
matching live record) and then still falls through to the find-or-append of
a cached_pass entry, whose bytes are copied from the already-advanced
cursor, after which the cursor advances again. -/
def load_entry (dp : Dispatch) (blob : List Nat) (pos : Nat) :
    Option (Dispatch × Nat) :=
  match read_le blob pos 8, read_le blob (pos + 8) 8 with
  | some sig, some size =>
    let pos1 := pos + 16
    if size = 0 then some (dp, pos1)
    else
      let pos2 := pos1 + size * (dp.passes.filter (fun p => p.signature == sig)).length
      match read_bytes blob pos2 size with
      | Option.none => Option.none
      | some prog =>
        some ({ dp with cached_passes := replace_first_cached dp.cached_passes sig prog },
              pos2 + size)
  | _, _ => Option.none

/-- Modelled from the spec: the intended entry-processing of the loader
(spec 4.8 and 9), which the source's misplaced `continue` fails to
implement.  When a live record already holds the entry's signature the entry
is skipped by advancing the cursor past exactly its program bytes once,
creating or modifying no cached_pass entry; otherwise the entry's bytes
replace (or create) the cached_pass entry for that signature. -/
def load_entry_spec (dp : Dispatch) (blob : List Nat) (pos : Nat) :
    Option (Dispatch × Nat) :=
  match read_le blob pos 8, read_le blob (pos + 8) 8 with
  | some sig, some size =>
    let pos1 := pos + 16
    if size = 0 then some (dp, pos1)
    else if dp.passes.any (fun p => p.signature == sig) then some (dp, pos1 + size)
    else
      match read_bytes blob pos1 size with
      | Option.none => Option.none
      | some prog =>
        some ({ dp with cached_passes := replace_first_cached dp.cached_passes sig prog },
              pos1 + size)
  | _, _ => Option.none

/-- Runs an entry-processing function over `n` consecutive entries. -/
def load_entries (f : Dispatch → List Nat → Nat → Option (Dispatch × Nat))
    (blob : List Nat) : Dispatch → Nat → Nat → Option Dispatch
  | dp, _, 0 => some dp
  | dp, pos, n + 1 =>
    match f dp blob pos with
    | Option.none => Option.none
    | some r => load_entries f blob r.1 r.2 n

/-- Log levels distinguished by the loader's header validation: a magic
mismatch is reported with PL_ERR, a version mismatch with PL_WARN. -/
inductive LogLevel where
  | err
  | warn
deriving DecidableEq

/-- pl_dispatch_load: validates magic and version; a mismatch returns with
the state untouched, carrying the level of the log message emitted.  On a
valid header the entries are processed; Option.none models a read past the
end of the blob. -/
def pl_dispatch_load (dp : Dispatch) (blob : List Nat) :
    Option (Dispatch × Option LogLevel) :=
  match read_bytes blob 0 4 with
  | Option.none => Option.none
  | some magic =>
    if magic ≠ cache_magic then some (dp, some LogLevel.err)
    else
      match read_le blob 4 4 with
      | Option.none => Option.none
      | some version =>
        if version ≠ cache_version then some (dp, some LogLevel.warn)
        else
          match read_le blob 8 4 with
          | Option.none => Option.none
          | some num =>
            match load_entries load_entry blob dp 12 num with
            | Option.none => Option.none
            | some dp1 => some (dp1, Option.none)

/-- Modelled from the spec: pl_dispatch_load with the intended
entry-processing of spec 4.8 (same header validation as the source). -/
def pl_dispatch_load_spec (dp : Dispatch) (blob : List Nat) :
    Option (Dispatch × Option LogLevel) :=
  match read_bytes blob 0 4 with
  | Option.none => Option.none
  | some magic =>
    if magic ≠ cache_magic then some (dp, some LogLevel.err)
    else
      match read_le blob 4 4 with
      | Option.none => Option.none
      | some version =>
        if version ≠ cache_version then some (dp, some LogLevel.warn)
        else
          match read_le blob 8 4 with
          | Option.none => Option.none
          | some num =>
            match load_entries load_entry_spec blob dp 12 num with
            | Option.none => Option.none
            | some dp1 => some (dp1, Option.none)

/-! ### Variable placement (add_pass_var and the two placement passes) -/

/-- struct pl_var, reduced to the shape data placement depends on: vector
dimension, matrix columns, array length. -/
structure PlVar where
  dim_v : Nat
  dim_m : Nat
  dim_a : Nat
deriving DecidableEq

/-- struct pl_shader_var: a variable with its dynamic hint. -/
structure ShaderVar where
  var : PlVar
  dynamic : Bool
deriving DecidableEq

/-- struct pl_var_layout. -/
structure VarLayout where
  offset : Nat
  stride : Nat
  size : Nat
deriving DecidableEq

/-- The capability and limit fields of pl_gpu that add_pass_var reads. -/
structure GpuLimits where
  glsl_vulkan : Bool
  glsl_version : Nat
  max_pushc_size : Nat
  max_ubo_size : Nat
  cap_input_variables : Bool
deriving DecidableEq

/-- enum pass_var_type. -/
inductive PassVarType where
  | none
  | global
  | ubo
  | pushc
deriving DecidableEq

/-- struct pass_var (cached_data is tracked separately by update, which no
claim here depends on). -/
structure PassVar where
  index : Nat
  type : PassVarType
  layout : VarLayout
deriving DecidableEq

/-- PL_ALIGN2: rounds x up to the next multiple of z (the C macro uses a
bit mask, equivalent for the power-of-two alignments it is used with). -/
def align2 (x z : Nat) : Nat := (x + z - 1) / z * z

/-- Modelled from the spec: pl_std430_layout lives in gpu.c, which is not
among the provided sources; the spec only names it as the layout used for
push constants (4.2).  std430 rules with 4-byte scalars: a vector of N
components occupies 4N bytes; vec3 is aligned like vec4; matrices and
arrays are tightly packed at the element alignment. -/
def pl_std430_layout (offset : Nat) (v : PlVar) : VarLayout :=
  let el := 4 * v.dim_v
  let align := if v.dim_v = 3 then 16 else el
  let stride := if v.dim_m * v.dim_a = 1 then el else align
  { offset := align2 offset align,
    stride := stride,
    size := stride * v.dim_m * v.dim_a }

/-- Modelled from the spec: pl_std140_layout (gpu.c, not among the provided
sources): like std430 but matrix and array strides are rounded up to vec4. -/
def pl_std140_layout (offset : Nat) (v : PlVar) : VarLayout :=
  let el := 4 * v.dim_v
  let align0 := if v.dim_v = 3 then 16 else el
  let align := if v.dim_m * v.dim_a = 1 then align0 else align2 align0 16
  let stride := if v.dim_m * v.dim_a = 1 then el else align
  { offset := align2 offset align,
    stride := stride,
    size := stride * v.dim_m * v.dim_a }

/-- Modelled from the spec: pl_var_host_layout (gpu.c, not among the
provided sources): tight host packing with 4-byte scalars. -/
def pl_var_host_layout (offset : Nat) (v : PlVar) : VarLayout :=
  { offset := offset,
    stride := 4 * v.dim_v,
    size := 4 * v.dim_v * v.dim_m * v.dim_a }

/-- The placement state threaded through add_pass_var: the pass params
fields it mutates (push_constants_size, num_variables) and the running size
of the synthetic UBO descriptor (`sh_buf_desc_size(&pass->ubo_desc)`). -/
structure PlaceState where
  push_constants_size : Nat
  num_variables : Nat
  ubo_size : Nat
deriving DecidableEq

/-- The push-constant attempt of add_pass_var: only tried when the variable
is small (a one-column, non-array value), dynamic, or the pass is greedy,
and only on a Vulkan-GLSL backend with a non-zero push-constant budget; the
std430 layout is taken at the current region size and the placement is kept
when the grown region still fits the budget. -/
def try_pushc_place (gpu : GpuLimits) (st : PlaceState) (sv : ShaderVar)
    (pv : PassVar) (greedy : Bool) : Option (PlaceState × PassVar) :=
  if (greedy || (sv.var.dim_m == 1 && sv.var.dim_a == 1) || sv.dynamic) &&
      gpu.glsl_vulkan && !(gpu.max_pushc_size == 0) then
    if (pl_std430_layout st.push_constants_size sv.var).offset +
        (pl_std430_layout st.push_constants_size sv.var).size ≤ gpu.max_pushc_size then
      some ({ st with push_constants_size :=
                (pl_std430_layout st.push_constants_size sv.var).offset +
                (pl_std430_layout st.push_constants_size sv.var).size },
            { pv with type := PassVarType.pushc,
                      layout := pl_std430_layout st.push_constants_size sv.var })
    else Option.none
  else Option.none

/-- Modelled from the spec: sh_buf_desc_append (shaders.c, not among the
provided sources) appends the variable to the synthetic UBO descriptor at
its std140 layout, failing when the new end exceeds the UBO size budget;
it returns the variable's layout and the descriptor's new size. -/
def sh_buf_desc_append (gpu : GpuLimits) (cur_size : Nat) (v : PlVar) :
    Option (VarLayout × Nat) :=
  if (pl_std140_layout cur_size v).offset + (pl_std140_layout cur_size v).size ≤
      gpu.max_ubo_size then
    some (pl_std140_layout cur_size v,
          (pl_std140_layout cur_size v).offset + (pl_std140_layout cur_size v).size)
  else Option.none

/-- The UBO attempt of add_pass_var: avoided for dynamic variables when the
backend has global input variables, and requires GLSL 440 (explicit UBO
offsets) and a non-zero UBO budget. -/
def try_ubo_place (gpu : GpuLimits) (st : PlaceState) (sv : ShaderVar)
    (pv : PassVar) : Option (PlaceState × PassVar) :=
  if (!gpu.cap_input_variables || !sv.dynamic) && 440 ≤ gpu.glsl_version &&
      !(gpu.max_ubo_size == 0) then
    match sh_buf_desc_append gpu st.ubo_size sv.var with
    | Option.none => Option.none
    | some r =>
      some ({ st with ubo_size := r.2 },
            { pv with type := PassVarType.ubo, layout := r.1 })
  else Option.none

/-- add_pass_var: an already-placed variable is left alone; then the
push-constant attempt; a non-greedy pass stops here (returning success
without placing, so the second pass can still fill push constants first);
the greedy pass falls back to the synthetic UBO, then to a global input
variable, and fails when no method is left. -/
def add_pass_var (gpu : GpuLimits) (st : PlaceState) (sv : ShaderVar)
    (pv : PassVar) (greedy : Bool) : Option (PlaceState × PassVar) :=
  if pv.type ≠ PassVarType.none then some (st, pv)
  else
    match try_pushc_place gpu st sv pv greedy with
    | some r => some r
    | Option.none =>
      if !greedy then some (st, pv)
      else
        match try_ubo_place gpu st sv pv with
        | some r => some r
        | Option.none =>
          if gpu.cap_input_variables then
            some ({ st with num_variables := st.num_variables + 1 },
                  { pv with type := PassVarType.global,
                            index := st.num_variables,
                            layout := pl_var_host_layout 0 sv.var })
          else Option.none

/-- One placement pass of find_pass over the variable list, threading the
placement state through add_pass_var (the two parallel lists always have
equal length at the call sites). -/
def add_pass_vars (gpu : GpuLimits) (greedy : Bool) :
    PlaceState → List ShaderVar → List PassVar → Option (PlaceState × List PassVar)
  | st, [], _ => some (st, [])
  | _, _ :: _, [] => Option.none
  | st, sv :: svs, pv :: pvs =>
    match add_pass_var gpu st sv pv greedy with
    | Option.none => Option.none
    | some r1 =>
      match add_pass_vars gpu greedy r1.1 svs pvs with
      | Option.none => Option.none
      | some r2 => some (r2.1, r1.2 :: r2.2)

/-- Variable placement as find_pass performs it: the conservative pass, the
greedy pass, then the push-constant region size is rounded up to a 4-byte
multiple (`params.push_constants_size = PL_ALIGN2(..., 4)`).  Returns the
final placement state and the per-variable placement table. -/
def place_variables (gpu : GpuLimits) (vars : List ShaderVar) :
    Option (PlaceState × List PassVar) :=
  let st0 : PlaceState := { push_constants_size := 0, num_variables := 0, ubo_size := 0 }
  let pvs0 := vars.map (fun _ =>
    ({ index := 0, type := PassVarType.none,
       layout := { offset := 0, stride := 0, size := 0 } } : PassVar))
  match add_pass_vars gpu false st0 vars pvs0 with
  | Option.none => Option.none
  | some r1 =>
    match add_pass_vars gpu true r1.1 vars r1.2 with
    | Option.none => Option.none
    | some r2 =>
      some ({ r2.1 with push_constants_size := align2 r2.1.push_constants_size 4 }, r2.2)

/-! ### Dispatch entry points -/

/-- The fields of struct pl_shader the entry-point preambles read.  `id`
is an abstract identity for shader-pool bookkeeping. -/
structure Shader where
  id : Nat
  failed : Bool
  is_mutable : Bool
  input : Nat
  output : Nat
  is_compute : Bool
  num_vas : Nat
  signature : Nat
deriving DecidableEq

/-- The fields of the target's pl_tex_params the entry points validate. -/
structure TexParams where
  dims : Nat
  renderable : Bool
  storable : Bool
  w : Nat
  h : Nat
  fmt : Nat
deriving DecidableEq

/-- pl_dispatch_abort: a NULL handle is left alone; otherwise the shader is
re-added to the root's pool and the caller's handle is cleared. -/
def pl_dispatch_abort (dp : Dispatch) (psh : Option Shader) :
    Dispatch × Option Shader :=
  match psh with
  | Option.none => (dp, Option.none)
  | some sh => ({ dp with shaders := dp.shaders ++ [sh.id] }, Option.none)

/-- pl_dispatch_finish: the preamble validations in source order, then
find_pass and the run; every path falls through to pl_dispatch_abort on the
handle.  Returns the root, the caller's handle after the call, and the
boolean result.  The opportunistic compute upgrade (sh_try_compute), rect
handling and pl_shader_output_size live outside the provided sources; the
`load` flag they produce is taken as a parameter, and `create_ok` /
`new_program` are the backend oracle for a cache miss. -/
def pl_dispatch_finish (dp : Dispatch) (sh : Shader) (target : TexParams)
    (blend : Option (Nat × Nat × Nat × Nat)) (load : Bool) (create_ok : Bool)
    (new_program : List Nat) : Dispatch × Option Shader × Bool :=
  let step : Dispatch × Bool :=
    if sh.failed then (dp, false)
    else if !sh.is_mutable then (dp, false)
    else if sh.input ≠ PL_SHADER_SIG_NONE ∨ sh.output ≠ PL_SHADER_SIG_COLOR then (dp, false)
    else if target.dims ≠ 2 ∨ !target.renderable then (dp, false)
    else if sh.is_compute ∧ !target.storable then (dp, false)
    else
      let r := find_pass dp
        { signature := sh.signature, is_compute := sh.is_compute,
          fmt := target.fmt, blend := blend, load_target := load,
          vparams := Option.none, create_ok := create_ok, new_program := new_program }
      (r.dp, r.pass.alive)
  let aborted := pl_dispatch_abort step.1 (some sh)
  (aborted.1, aborted.2, step.2)

/-- pl_dispatch_compute: the preamble validations in source order, then
find_pass with no target and the run; every path falls through to
pl_dispatch_abort on the handle. -/
def pl_dispatch_compute (dp : Dispatch) (sh : Shader) (width height : Nat)
    (create_ok : Bool) (new_program : List Nat) : Dispatch × Option Shader × Bool :=
  let step : Dispatch × Bool :=
    if sh.failed then (dp, false)
    else if !sh.is_mutable then (dp, false)
    else if sh.input ≠ PL_SHADER_SIG_NONE then (dp, false)
    else if !sh.is_compute then (dp, false)
    else if 0 < sh.num_vas ∧ (width = 0 ∨ height = 0) then (dp, false)
    else
      let r := find_pass dp
        { signature := sh.signature, is_compute := true, fmt := 0,
          blend := Option.none, load_target := false, vparams := Option.none,
          create_ok := create_ok, new_program := new_program }
      (r.dp, r.pass.alive)
  let aborted := pl_dispatch_abort step.1 (some sh)
  (aborted.1, aborted.2, step.2)

/-- pl_dispatch_vertex: the preamble validations in source order
(the position index is an int checked against [0, num_vertex_attribs); it
is a Nat here, so only the upper check remains), then find_pass with the
custom vertex parameters and load_target forced true; every path falls
through to pl_dispatch_abort on the handle. -/
def pl_dispatch_vertex (dp : Dispatch) (sh : Shader) (target : TexParams)
    (blend : Option (Nat × Nat × Nat × Nat)) (vertex_type vertex_stride : Nat)
    (num_vertex_attribs vertex_position_idx : Nat) (create_ok : Bool)
    (new_program : List Nat) : Dispatch × Option Shader × Bool :=
  let step : Dispatch × Bool :=
    if sh.failed then (dp, false)
    else if !sh.is_mutable then (dp, false)
    else if sh.input ≠ PL_SHADER_SIG_NONE ∨ sh.output ≠ PL_SHADER_SIG_COLOR then (dp, false)
    else if target.dims ≠ 2 ∨ !target.renderable then (dp, false)
    else if sh.is_compute then (dp, false)
    else if 0 < sh.num_vas then (dp, false)
    else if num_vertex_attribs ≤ vertex_position_idx then (dp, false)
    else
      let r := find_pass dp
        { signature := sh.signature, is_compute := false, fmt := target.fmt,
          blend := blend, load_target := true,
          vparams := some (vertex_type, vertex_stride),
          create_ok := create_ok, new_program := new_program }
      (r.dp, r.pass.alive)
  let aborted := pl_dispatch_abort step.1 (some sh)
  (aborted.1, aborted.2, step.2)

/-! ### Concrete states used by counterexamples and witnesses -/

/-- A default pass record for building concrete states. -/
def base_pass : Pass :=
  { signature := 0, alive := true, cached_program := [], last_index := 0,
    fmt := 0, blend := Option.none, load_target := false,
    vertex_type := PL_PRIM_TRIANGLE_STRIP, vertex_stride := 0 }

/-- A compute-shader find_pass query with the backend oracle attached. -/
def compute_query (sig : Nat) (ok : Bool) : FindQuery :=
  { signature := sig, is_compute := true, fmt := 0, blend := Option.none,
    load_target := false, vparams := Option.none, create_ok := ok,
    new_program := [] }

/-- Issues one compute dispatch per signature through find_pass (each with a
succeeding backend), as the eviction scenarios of the spec do. -/
def dispatch_sigs : Dispatch → List Nat → Dispatch
  | dp, [] => dp
  | dp, s :: rest => dispatch_sigs (find_pass dp (compute_query s true)).dp rest

/-- C1 input state: one live record with signature 1. -/
def dp_c1 : Dispatch :=
  { pl_dispatch_create with passes := [{ base_pass with signature := 1 }] }

/-- C1 input blob: a well-formed cache with two entries,
(signature 1, 1 byte 0xAA) and (signature 2, 1 byte 0xBB). -/
def blob_c1 : List Nat :=
  cache_magic ++ le32 cache_version ++ le32 2 ++
    save_entry 1 [170] ++ save_entry 2 [187]

/-- C2/C9 failing state: a single failed record (empty pass handle), whose
signature is 5.  It is counted by the entry_count field of save but never
serialized. -/
def dp_c2 : Dispatch :=
  { pl_dispatch_create with
    passes := [{ base_pass with signature := 5, alive := false }] }

/-- C9 failing state (same shape as dp_c2, kept separate). -/
def dp_c9 : Dispatch :=
  { pl_dispatch_create with
    passes := [{ base_pass with signature := 5, alive := false }] }

/-- C3 counterexample state: capacity 4, frame 20, five records last used at
frame 0 (age 20, all evictable). -/
def dp_c3 : Dispatch :=
  { pl_dispatch_create with
    current_index := 20, max_passes := 4,
    passes := [{ base_pass with signature := 1 }, { base_pass with signature := 2 },
               { base_pass with signature := 3 }, { base_pass with signature := 4 },
               { base_pass with signature := 5 }] }

/-- C3 witness state: capacity 2, frame 0, three fresh records. -/
def dp_c3w : Dispatch :=
  { pl_dispatch_create with
    max_passes := 2,
    passes := [{ base_pass with signature := 1 }, { base_pass with signature := 2 },
               { base_pass with signature := 3 }] }

/-- C4 scenario start: an empty root with capacity 4 (the spec's eviction
doubling scenario). -/
def dp_c4 : Dispatch := { pl_dispatch_create with max_passes := 4 }

/-- C5 scenario: capacity 1.  Signature 1's create fails; 20 frames pass;
two more signatures are dispatched, the second of which evicts the failed
sentinel; then signature 1 is dispatched again. -/
def dp_c5a : Dispatch :=
  (find_pass { pl_dispatch_create with max_passes := 1 } (compute_query 1 false)).dp

/-- C5 scenario after 20 frame resets. -/
def dp_c5b : Dispatch := reset_frames 20 dp_c5a

/-- C5 scenario after dispatching signatures 2 and 3 (the latter evicts the
failed signature-1 sentinel). -/
def dp_c5c : Dispatch := dispatch_sigs dp_c5b [2, 3]

/-- C5 witness state: a root holding a failed record with signature 7. -/
def dp_c5w : Dispatch :=
  { pl_dispatch_create with
    passes := [{ base_pass with signature := 7, alive := false }] }

/-- C6 witness backend: Vulkan GLSL 450 with a 128-byte push-constant
budget, a 64 KiB UBO budget, and global input variables. -/
def gpu_c6 : GpuLimits :=
  { glsl_vulkan := true, glsl_version := 450, max_pushc_size := 128,
    max_ubo_size := 65536, cap_input_variables := true }

/-- C6 witness variables: a dynamic vec4 and a static mat3. -/
def vars_c6 : List ShaderVar :=
  [{ var := { dim_v := 4, dim_m := 1, dim_a := 1 }, dynamic := true },
   { var := { dim_v := 3, dim_m := 3, dim_a := 1 }, dynamic := false }]

/-- C8 counterexample blob: magic 'PLDX', version 1, zero entries. -/
def blob_c8 : List Nat := [80, 76, 68, 88] ++ le32 1 ++ le32 0

/-- C8 witness blob: magic 'PLDP', version 2, zero entries. -/
def blob_c8v : List Nat := cache_magic ++ le32 2 ++ le32 0

/-- C6 witness output: the placement state place_variables yields for
gpu_c6 and vars_c6. -/
def st_c6 : PlaceState := { push_constants_size := 64, num_variables := 0, ubo_size := 0 }

/-- C6 witness output: the placement table place_variables yields for
gpu_c6 and vars_c6 (both variables in push constants). -/
def pvs_c6 : List PassVar :=
  [{ index := 0, type := PassVarType.pushc,
     layout := { offset := 0, stride := 16, size := 16 } },
   { index := 0, type := PassVarType.pushc,
     layout := { offset := 16, stride := 16, size := 48 } }]

/-! ### Helper lemmas -/

/-- insert_pass adds exactly one element. -/
theorem length_insert_pass (p : Pass) (l : List Pass) :
    (insert_pass p l).length = l.length + 1 := by
  induction l with
  | nil => rfl
  | cons q rest ih =>
    unfold insert_pass
    split
    · simp
    · simp [ih]

/-- sort_passes preserves length. -/
theorem length_sort_passes (l : List Pass) :
    (sort_passes l).length = l.length := by
  induction l with
  | nil => rfl
  | cons p rest ih => simp [sort_passes, length_insert_pass, ih]

/-- Membership in insert_pass. -/
theorem mem_insert_pass (x p : Pass) (l : List Pass) :
    x ∈ insert_pass p l ↔ x = p ∨ x ∈ l := by
  induction l with
  | nil => simp [insert_pass]
  | cons q rest ih =>
    unfold insert_pass
    split
    · simp
    · simp [ih]
      tauto

/-- Membership in sort_passes. -/
theorem mem_sort_passes (x : Pass) (l : List Pass) :
    x ∈ sort_passes l ↔ x ∈ l := by
  induction l with
  | nil => simp [sort_passes]
  | cons p rest ih => simp [sort_passes, mem_insert_pass, ih]

/-- insert_pass preserves the descending last_index order. -/
theorem pairwise_insert_pass (p : Pass) (l : List Pass)
    (h : l.Pairwise (fun a b => b.last_index ≤ a.last_index)) :
    (insert_pass p l).Pairwise (fun a b => b.last_index ≤ a.last_index) := by
  induction l with
  | nil => simp [insert_pass]
  | cons q rest ih =>
    rw [List.pairwise_cons] at h
    unfold insert_pass
    split
    · rename_i hle
      rw [List.pairwise_cons]
      refine ⟨?_, by rw [List.pairwise_cons]; exact h⟩
      intro b hb
      rcases List.mem_cons.mp hb with rfl | hb
      · exact hle
      · exact le_trans (h.1 b hb) hle
    · rename_i hgt
      rw [List.pairwise_cons]
      refine ⟨?_, ih h.2⟩
      intro b hb
      rcases (mem_insert_pass b p rest).mp hb with rfl | hb
      · omega
      · exact h.1 b hb

/-- sort_passes sorts in descending last_index order. -/
theorem pairwise_sort_passes (l : List Pass) :
    (sort_passes l).Pairwise (fun a b => b.last_index ≤ a.last_index) := by
  induction l with
  | nil => simp [sort_passes]
  | cons p rest ih => exact pairwise_insert_pass p _ ih

/-- After dropping the longest satisfying prefix of a list whose order makes
the predicate prefix-closed, no element satisfies the predicate. -/
theorem pred_false_of_mem_drop_takeWhile {α : Type} (pred : α → Bool)
    (R : α → α → Prop)
    (hmono : ∀ a b, R a b → pred b = true → pred a = true) :
    ∀ (l : List α), l.Pairwise R →
      ∀ q ∈ l.drop (l.takeWhile pred).length, pred q = false := by
  intro l
  induction l with
  | nil => intro _ q hq; simp at hq
  | cons a l ih =>
    intro hp q hq
    rw [List.pairwise_cons] at hp
    by_cases hpa : pred a = true
    · rw [List.takeWhile_cons, if_pos hpa] at hq
      simp only [List.length_cons, List.drop_succ_cons] at hq
      exact ih hp.2 q hq
    · rw [List.takeWhile_cons, if_neg hpa] at hq
      simp only [List.length_nil, List.drop_zero] at hq
      rcases List.mem_cons.mp hq with rfl | hq
      · cases hb : pred q with
        | false => rfl
        | true => exact absurd hb hpa
      · cases hb : pred q with
        | false => rfl
        | true => exact absurd (hmono a q (hp.1 q hq) hb) hpa

/-- The eviction predicate is prefix-closed along the sorted order: a pass
placed later in descending last_index order is at least as old. -/
theorem pass_is_young_mono (cur : Nat) (a b : Pass)
    (hR : b.last_index ≤ a.last_index) (hb : pass_is_young cur b = true) :
    pass_is_young cur a = true := by
  simp only [pass_is_young, pass_age, decide_eq_true_eq] at *
  omega

/-- Every record dropped by the eviction scan has age at least MIN_AGE. -/
theorem gc_dropped_old (dp : Dispatch) (q : Pass)
    (hq : q ∈ (sort_passes dp.passes).drop
      (gc_keep_index dp.current_index (sort_passes dp.passes))) :
    (MIN_AGE : Int) ≤ pass_age dp.current_index q := by
  have hpw := pairwise_sort_passes dp.passes
  have hdrop : (sort_passes dp.passes).drop
      (gc_keep_index dp.current_index (sort_passes dp.passes)) =
      ((sort_passes dp.passes).drop ((sort_passes dp.passes).length / 2)).drop
        (((sort_passes dp.passes).drop ((sort_passes dp.passes).length / 2)).takeWhile
          (pass_is_young dp.current_index)).length := by
    rw [List.drop_drop]
    unfold gc_keep_index
    congr 1
  rw [hdrop] at hq
  have hpw2 : ((sort_passes dp.passes).drop
      ((sort_passes dp.passes).length / 2)).Pairwise
      (fun a b => b.last_index ≤ a.last_index) :=
    List.Pairwise.sublist (List.drop_sublist _ _) hpw
  have := pred_false_of_mem_drop_takeWhile (pass_is_young dp.current_index)
    (fun a b => b.last_index ≤ a.last_index)
    (pass_is_young_mono dp.current_index) _ hpw2 q hq
  simp only [pass_is_young, decide_eq_false_iff_not, not_lt] at this
  exact this

/-- C3 (amended): after any eviction pass, at least half rounded down of the
previously live Compiled Pass Records remain (with an odd count the source
keeps exactly the floor, which is less than half), and no record whose age
is below MIN_AGE is evicted: every evicted record has age at least MIN_AGE,
and every live record younger than MIN_AGE survives the pass. -/
theorem gc_eviction_floor (dp : Dispatch) :
    dp.passes.length / 2 ≤ (garbage_collect_passes dp).passes.length ∧
    (∀ p ∈ gc_evicted dp, (MIN_AGE : Int) ≤ pass_age dp.current_index p) ∧
    (∀ p ∈ dp.passes, pass_age dp.current_index p < (MIN_AGE : Int) →
      p ∈ (garbage_collect_passes dp).passes) := by
  by_cases hc : dp.passes.length ≤ dp.max_passes
  · refine ⟨?_, ?_, ?_⟩
    · unfold garbage_collect_passes
      rw [if_pos hc]
      omega
    · intro p hp
      unfold gc_evicted at hp
      rw [if_pos hc] at hp
      simp at hp
    · intro p hp _
      unfold garbage_collect_passes
      rw [if_pos hc]
      exact hp
  · refine ⟨?_, ?_, ?_⟩
    · unfold garbage_collect_passes
      rw [if_neg hc]
      have hl := length_sort_passes dp.passes
      simp only [List.length_take]
      unfold gc_keep_index
      omega
    · intro p hp
      unfold gc_evicted at hp
      rw [if_neg hc] at hp
      exact gc_dropped_old dp p hp
    · intro p hp hyoung
      unfold garbage_collect_passes
      rw [if_neg hc]
      have hmem : p ∈ sort_passes dp.passes := (mem_sort_passes p _).mpr hp
      have hsplit : p ∈ (sort_passes dp.passes).take
            (gc_keep_index dp.current_index (sort_passes dp.passes)) ∨
          p ∈ (sort_passes dp.passes).drop
            (gc_keep_index dp.current_index (sort_passes dp.passes)) := by
        rw [← List.mem_append, List.take_append_drop]
        exact hmem
      rcases hsplit with h1 | h2
      · exact h1
      · exact absurd hyoung (by have := gc_dropped_old dp p h2; omega)

/-- C3 witness: a state with three fresh records over capacity 2; the
collector keeps all of them (too young), so the floor and the
young-records-survive parts hold at a concrete input. -/
theorem gc_eviction_floor_witness :
    dp_c3w.passes.length / 2 ≤ (garbage_collect_passes dp_c3w).passes.length ∧
    { base_pass with signature := 1 } ∈ (garbage_collect_passes dp_c3w).passes :=
  ⟨(gc_eviction_floor dp_c3w).1,
   (gc_eviction_floor dp_c3w).2.2 { base_pass with signature := 1 }
     (by decide) (by decide)⟩

/-- C3 counterexample: five records of age 20 over capacity 4; the
collector keeps only 2 of the 5 previously live records, strictly fewer
than half, refuting the claim that at least half remain. -/
theorem gc_half_counterexample :
    2 * (garbage_collect_passes dp_c3).passes.length < dp_c3.passes.length := by decide

/-- The identity tag of the (n+1)-st consecutive unique begin is the wrapped
sum of the starting counter and n. -/
theorem nth_unique_ident_eq (dp : Dispatch) (h : dp.current_ident < 256) :
    ∀ n, nth_unique_ident dp n = (dp.current_ident + n) % 256 := by
  intro n
  induction n generalizing dp with
  | zero =>
    simp [nth_unique_ident, pl_dispatch_begin_ex, Nat.mod_eq_of_lt h]
  | succ n ih =>
    rw [nth_unique_ident]
    rw [ih _ (by simp [pl_dispatch_begin_ex]; omega)]
    simp only [pl_dispatch_begin_ex, if_pos]
    omega

/-- C7 (amended): within a frame, the identity tags of the first 256 unique
begins are pairwise distinct; the counter is a uint8_t and wraps, so
distinctness is limited to 256 unique begins per frame. -/
theorem unique_ident_distinct (dp : Dispatch) (i j : Nat) (hij : i < j)
    (hj : j < 256) :
    nth_unique_ident (pl_dispatch_reset_frame dp) i ≠
      nth_unique_ident (pl_dispatch_reset_frame dp) j := by
  rw [nth_unique_ident_eq (pl_dispatch_reset_frame dp) (by simp [pl_dispatch_reset_frame]),
    nth_unique_ident_eq (pl_dispatch_reset_frame dp) (by simp [pl_dispatch_reset_frame])]
  simp only [pl_dispatch_reset_frame]
  omega

/-- C7 witness: the first and second unique begins of a fresh frame carry
distinct identity tags. -/
theorem unique_ident_distinct_witness :
    nth_unique_ident (pl_dispatch_reset_frame pl_dispatch_create) 0 ≠
      nth_unique_ident (pl_dispatch_reset_frame pl_dispatch_create) 1 :=
  unique_ident_distinct pl_dispatch_create 0 1 (by decide) (by decide)

/-- C7 counterexample: with no frame reset in between, the 1st and the 257th
unique begin return the same identity tag (the uint8_t counter wraps),
refuting distinctness for arbitrarily many begin calls in one frame. -/
theorem unique_ident_wrap_counterexample :
    nth_unique_ident pl_dispatch_create 0 = nth_unique_ident pl_dispatch_create 256 := by
  rw [nth_unique_ident_eq pl_dispatch_create (by decide),
    nth_unique_ident_eq pl_dispatch_create (by decide)]
  decide

/-- A failed record matches any query carrying its signature: the scan's
dead-record check precedes all raster checks. -/
theorem pass_matches_of_dead (q : FindQuery) (p : Pass)
    (hsig : p.signature = q.signature) (hdead : p.alive = false) :
    pass_matches q p = true := by
  simp [pass_matches, hsig, hdead]

/-- The scan succeeds whenever some record matches. -/
theorem find_pass_scan_isSome (ps : List Pass) (q : FindQuery) (cur : Nat)
    (h : ∃ p ∈ ps, pass_matches q p = true) :
    (find_pass_scan ps q cur).isSome = true := by
  induction ps with
  | nil => simp at h
  | cons p rest ih =>
    unfold find_pass_scan
    split
    · simp
    · rename_i hm
      obtain ⟨x, hx, hxm⟩ := h
      rcases List.mem_cons.mp hx with rfl | hx
      · exact absurd hxm (by simpa using hm)
      · cases hcase : find_pass_scan rest q cur with
        | none =>
          rw [hcase] at ih
          simp at ih
          rw [ih x hx] at hxm
          exact Bool.noConfusion hxm
        | some r => simp [hcase]

/-- A successful scan returns a list of the same length. -/
theorem find_pass_scan_length (ps : List Pass) (q : FindQuery) (cur : Nat) :
    ∀ r, find_pass_scan ps q cur = some r → r.2.length = ps.length := by
  induction ps with
  | nil => intro r h; simp [find_pass_scan] at h
  | cons p rest ih =>
    intro r h
    unfold find_pass_scan at h
    split at h
    · cases h; simp
    · cases hcase : find_pass_scan rest q cur with
      | none => rw [hcase] at h; simp at h
      | some r1 =>
        rw [hcase] at h
        cases h
        simp [ih r1 hcase]

/-- C5 (amended): a record whose pass-create failed is inserted with an
empty pass handle, and while it remains in the live collection every lookup
of its signature short-circuits to the sentinel: the construction path does
not run, so the backend's pass-create is not called, and no record or
cached entry is added or removed.  (The sentinel can, however, be evicted
by the Eviction Controller like any record, after which a later dispatch of
the signature calls pass-create again.) -/
theorem find_pass_sticky_failure (dp : Dispatch) (q : FindQuery)
    (h : ∃ p ∈ dp.passes, p.signature = q.signature ∧ p.alive = false) :
    (find_pass dp q).created = false ∧
    (find_pass dp q).dp.passes.length = dp.passes.length ∧
    (find_pass dp q).dp.cached_passes = dp.cached_passes := by
  obtain ⟨p, hp, hsig, hdead⟩ := h
  have hsome := find_pass_scan_isSome dp.passes q dp.current_index
    ⟨p, hp, pass_matches_of_dead q p hsig hdead⟩
  unfold find_pass
  cases hcase : find_pass_scan dp.passes q dp.current_index with
  | none => rw [hcase] at hsome; simp at hsome
  | some r =>
    exact ⟨rfl, find_pass_scan_length dp.passes q dp.current_index r hcase, rfl⟩

/-- C5 witness: a root holding the failed sentinel for signature 7; looking
the signature up does not run the construction path and changes no
collection size. -/
theorem find_pass_sticky_failure_witness :
    (find_pass dp_c5w (compute_query 7 true)).created = false ∧
    (find_pass dp_c5w (compute_query 7 true)).dp.passes.length =
      dp_c5w.passes.length ∧
    (find_pass dp_c5w (compute_query 7 true)).dp.cached_passes =
      dp_c5w.cached_passes :=
  find_pass_sticky_failure dp_c5w (compute_query 7 true)
    ⟨{ base_pass with signature := 7, alive := false }, by decide, by decide, by decide⟩

/-- C5 counterexample: the first create for signature 1 fails and the dead
sentinel is inserted; after 20 frames two further signatures are
dispatched, the second of which makes the Eviction Controller destroy the
aged sentinel; dispatching signature 1 again then runs the construction
path, so the backend's pass-create is called a second time for that
signature within the same process. -/
theorem failed_signature_recreated_counterexample :
    (find_pass { pl_dispatch_create with max_passes := 1 }
      (compute_query 1 false)).created = true ∧
    (find_pass { pl_dispatch_create with max_passes := 1 }
      (compute_query 1 false)).pass.alive = false ∧
    (find_pass dp_c5c (compute_query 1 true)).created = true := by decide

/-- C4 counterexample: with capacity 4 and MIN_AGE 10, dispatching 5
structurally different shaders in the same frame leaves the capacity bound
at 4 and all five records live — the bound does not grow to 8, because the
collector runs before each append and never sees the count exceed the
bound during these five dispatches. -/
theorem eviction_doubling_counterexample :
    (dispatch_sigs dp_c4 [1, 2, 3, 4, 5]).max_passes = 4 ∧
    (dispatch_sigs dp_c4 [1, 2, 3, 4, 5]).max_passes ≠ 8 ∧
    (dispatch_sigs dp_c4 [1, 2, 3, 4, 5]).passes.map Pass.signature =
      [1, 2, 3, 4, 5] := by decide

/-- C4 (amended): the Eviction Controller runs immediately before each new
record append, when the pre-append count already exceeds the capacity
bound; if every record is too young to evict, none is destroyed and the
bound doubles.  With capacity 4 and MIN_AGE 10, dispatching 5 structurally
different shaders in the same frame leaves the capacity at 4 with all 5
records live; the 6th dispatch doubles the capacity to 8 and destroys no
record. -/
theorem eviction_doubles_on_sixth_dispatch :
    (dispatch_sigs dp_c4 [1, 2, 3, 4, 5]).max_passes = 4 ∧
    (dispatch_sigs dp_c4 [1, 2, 3, 4, 5]).passes.length = 5 ∧
    (dispatch_sigs dp_c4 [1, 2, 3, 4, 5, 6]).max_passes = 8 ∧
    (dispatch_sigs dp_c4 [1, 2, 3, 4, 5, 6]).passes.map Pass.signature =
      [1, 2, 3, 4, 5, 6] := by decide

/-- C1: code bug.  On a root whose live record holds signature 1 and a
well-formed blob with entries (signature 1, byte 0xAA) and (signature 2,
byte 0xBB), the source's loader — whose skip `continue` targets the inner
loop over live records — advances the read cursor inside that loop, then
still falls through and creates a cached entry for signature 1 from the
misaligned cursor, advances again, misparses entry 2 and finally reads past
the end of the blob (Option.none).  The spec-modelled loader skips the
first entry exactly once, creates no entry for signature 1, and loads entry
2 as (2, 0xBB). -/
theorem load_skip_scope_bug :
    pl_dispatch_load dp_c1 blob_c1 = Option.none ∧
    pl_dispatch_load_spec dp_c1 blob_c1 =
      some ({ dp_c1 with
              cached_passes := [{ signature := 2, cached_program := [187] }] },
            Option.none) := by decide

/-- C2: code bug.  For a root holding exactly one failed record, save
writes an entry_count field of 1 yet serializes 0 entries: the count field
counts every live record and cached entry, while the body skips failed
records and records without a cached program, so the header contradicts
the body. -/
theorem save_entry_count_mismatch :
    save_count_field dp_c2 = 1 ∧ save_num_entries dp_c2 = 0 ∧
    pl_dispatch_save dp_c2 = cache_magic ++ le32 cache_version ++ le32 1 := by decide

/-- C9: code bug.  save of a root holding one failed record declares one
entry but carries none, so a fresh load of that blob reads the first entry
header past the end of the blob (undefined behaviour in C, Option.none
here); save-load-save idempotence therefore fails. -/
theorem save_load_save_roundtrip_fails :
    pl_dispatch_load pl_dispatch_create (pl_dispatch_save dp_c9) = Option.none := by decide

/-- C8 (amended): a blob failing magic validation is rejected with the
state untouched and an error-level message (PL_ERR, not a warning); a
well-magic blob with a wrong version is rejected with the state untouched
and a warning.  Neither is fatal. -/
theorem load_header_mismatch (dp : Dispatch) (blob : List Nat) :
    (4 ≤ blob.length → blob.take 4 ≠ cache_magic →
      pl_dispatch_load dp blob = some (dp, some LogLevel.err)) ∧
    (8 ≤ blob.length → blob.take 4 = cache_magic →
      le_value ((blob.drop 4).take 4) ≠ cache_version →
      pl_dispatch_load dp blob = some (dp, some LogLevel.warn)) := by
  constructor
  · intro hlen hmagic
    have h1 : read_bytes blob 0 4 = some (blob.take 4) := by
      unfold read_bytes
      rw [if_pos (by omega)]
      simp
    unfold pl_dispatch_load
    rw [h1]
    simp [hmagic]
  · intro hlen hmagic hver
    have h1 : read_bytes blob 0 4 = some (blob.take 4) := by
      unfold read_bytes
      rw [if_pos (by omega)]
      simp
    have h2 : read_le blob 4 4 = some (le_value ((blob.drop 4).take 4)) := by
      unfold read_le read_bytes
      rw [if_pos (by omega)]
      simp
    unfold pl_dispatch_load
    rw [h1, h2]
    simp [hmagic, hver]

/-- C8 witness: a 'PLDX' blob is rejected at error level, a version-2 blob
at warning level, both leaving a fresh root unchanged. -/
theorem load_header_mismatch_witness :
    pl_dispatch_load pl_dispatch_create blob_c8 =
      some (pl_dispatch_create, some LogLevel.err) ∧
    pl_dispatch_load pl_dispatch_create blob_c8v =
      some (pl_dispatch_create, some LogLevel.warn) :=
  ⟨(load_header_mismatch pl_dispatch_create blob_c8).1 (by decide) (by decide),
   (load_header_mismatch pl_dispatch_create blob_c8v).2 (by decide) (by decide)
     (by decide)⟩

/-- C8 counterexample: on a blob with magic 'PLDX' the loader leaves the
state unchanged but logs at error level (PL_ERR), not at warning level,
refuting the claim that the magic mismatch emits a warning. -/
theorem load_bad_magic_logs_error :
    pl_dispatch_load pl_dispatch_create blob_c8 =
      some (pl_dispatch_create, some LogLevel.err) ∧
    LogLevel.err ≠ LogLevel.warn := by decide


/-- align2 produces a multiple of 4 whenever the alignment is. -/
theorem four_dvd_align2 (x a : Nat) (h : 4 ∣ a) : 4 ∣ align2 x a := by
  unfold align2
  exact Dvd.dvd.mul_left h _

/-- The std430 offset of any variable is a multiple of 4. -/
theorem four_dvd_std430_offset (off : Nat) (v : PlVar) :
    4 ∣ (pl_std430_layout off v).offset := by
  simp only [pl_std430_layout]
  apply four_dvd_align2
  split
  · omega
  · exact ⟨v.dim_v, rfl⟩

/-- The std430 size of any variable is a multiple of 4. -/
theorem four_dvd_std430_size (off : Nat) (v : PlVar) :
    4 ∣ (pl_std430_layout off v).size := by
  simp only [pl_std430_layout]
  split
  · exact ⟨v.dim_v * v.dim_m * v.dim_a, by ring⟩
  · split
    · exact ⟨4 * v.dim_m * v.dim_a, by ring⟩
    · exact ⟨v.dim_v * v.dim_m * v.dim_a, by ring⟩

/-- Aligning a multiple of 4 up to 4 bytes changes nothing. -/
theorem align2_four_eq (x : Nat) (h : 4 ∣ x) : align2 x 4 = x := by
  unfold align2
  omega

/-- A successful push-constant attempt respects the budget, keeps the
region size a multiple of 4, and places the variable in push constants. -/
theorem try_pushc_place_some (gpu : GpuLimits) (st : PlaceState)
    (sv : ShaderVar) (pv : PassVar) (greedy : Bool) (r : PlaceState × PassVar)
    (h : try_pushc_place gpu st sv pv greedy = some r) :
    r.1.push_constants_size ≤ gpu.max_pushc_size ∧
    4 ∣ r.1.push_constants_size ∧
    r.2.type = PassVarType.pushc := by
  unfold try_pushc_place at h
  split at h
  · split at h
    · rename_i hfits
      cases h
      exact ⟨hfits,
        Nat.dvd_add (four_dvd_std430_offset _ _) (four_dvd_std430_size _ _), rfl⟩
    · exact Option.noConfusion h
  · exact Option.noConfusion h

/-- A successful UBO attempt leaves the push-constant region untouched and
places the variable in the synthetic UBO. -/
theorem try_ubo_place_some (gpu : GpuLimits) (st : PlaceState)
    (sv : ShaderVar) (pv : PassVar) (r : PlaceState × PassVar)
    (h : try_ubo_place gpu st sv pv = some r) :
    r.1.push_constants_size = st.push_constants_size ∧
    r.2.type = PassVarType.ubo := by
  unfold try_ubo_place at h
  split at h
  · cases hs : sh_buf_desc_append gpu st.ubo_size sv.var with
    | none => rw [hs] at h; exact Option.noConfusion h
    | some l => rw [hs] at h; cases h; exact ⟨rfl, rfl⟩
  · exact Option.noConfusion h

/-- add_pass_var keeps the push-constant region a multiple of 4 within the
budget. -/
theorem add_pass_var_inv (gpu : GpuLimits) (st : PlaceState) (sv : ShaderVar)
    (pv : PassVar) (greedy : Bool) (r : PlaceState × PassVar)
    (h : add_pass_var gpu st sv pv greedy = some r)
    (h4 : 4 ∣ st.push_constants_size)
    (hle : st.push_constants_size ≤ gpu.max_pushc_size) :
    4 ∣ r.1.push_constants_size ∧ r.1.push_constants_size ≤ gpu.max_pushc_size := by
  unfold add_pass_var at h
  split at h
  · cases h; exact ⟨h4, hle⟩
  · split at h
    · rename_i r1 heq
      cases h
      have := try_pushc_place_some gpu st sv pv greedy r heq
      exact ⟨this.2.1, this.1⟩
    · rename_i heq
      split at h
      · cases h; exact ⟨h4, hle⟩
      · split at h
        · rename_i r1 heq2
          cases h
          have := try_ubo_place_some gpu st sv pv r heq2
          rw [this.1]
          exact ⟨h4, hle⟩
        · split at h
          · cases h; exact ⟨h4, hle⟩
          · exact Option.noConfusion h

/-- In a greedy pass every variable a successful add_pass_var returns is
placed: the non-greedy early return is disabled, so the only successful
outcomes are an already-placed variable, push constants, the UBO, or a
global input variable. -/
theorem add_pass_var_greedy_placed (gpu : GpuLimits) (st : PlaceState)
    (sv : ShaderVar) (pv : PassVar) (r : PlaceState × PassVar)
    (h : add_pass_var gpu st sv pv true = some r) :
    r.2.type ≠ PassVarType.none := by
  unfold add_pass_var at h
  split at h
  · rename_i hne
    cases h
    exact hne
  · split at h
    · rename_i r1 heq
      cases h
      rw [(try_pushc_place_some gpu st sv pv true r heq).2.2]
      simp
    · split at h
      · rename_i hgt
        simp at hgt
      · split at h
        · rename_i r1 heq2
          cases h
          rw [(try_ubo_place_some gpu st sv pv r heq2).2]
          simp
        · split at h
          · cases h
            simp
          · exact Option.noConfusion h

/-- A placement pass preserves the push-constant invariant across the whole
variable list. -/
theorem add_pass_vars_inv (gpu : GpuLimits) (greedy : Bool) :
    ∀ (svs : List ShaderVar) (pvs : List PassVar) (st : PlaceState)
      (r : PlaceState × List PassVar),
      add_pass_vars gpu greedy st svs pvs = some r →
      4 ∣ st.push_constants_size →
      st.push_constants_size ≤ gpu.max_pushc_size →
      4 ∣ r.1.push_constants_size ∧
        r.1.push_constants_size ≤ gpu.max_pushc_size := by
  intro svs
  induction svs with
  | nil =>
    intro pvs st r h h4 hle
    unfold add_pass_vars at h
    cases h
    exact ⟨h4, hle⟩
  | cons sv svs ih =>
    intro pvs st r h h4 hle
    cases pvs with
    | nil => unfold add_pass_vars at h; exact Option.noConfusion h
    | cons pv pvs =>
      unfold add_pass_vars at h
      split at h
      · exact Option.noConfusion h
      · rename_i r1 heq1
        split at h
        · exact Option.noConfusion h
        · rename_i r2 heq2
          cases h
          have hmid := add_pass_var_inv gpu st sv pv greedy r1 heq1 h4 hle
          exact ih pvs r1.1 r2 heq2 hmid.1 hmid.2

/-- After the greedy placement pass every returned variable is placed. -/
theorem add_pass_vars_greedy_placed (gpu : GpuLimits) :
    ∀ (svs : List ShaderVar) (pvs : List PassVar) (st : PlaceState)
      (r : PlaceState × List PassVar),
      add_pass_vars gpu true st svs pvs = some r →
      ∀ pv ∈ r.2, pv.type ≠ PassVarType.none := by
  intro svs
  induction svs with
  | nil =>
    intro pvs st r h pv hpv
    unfold add_pass_vars at h
    cases h
    simp at hpv
  | cons sv svs ih =>
    intro pvs st r h pv hpv
    cases pvs with
    | nil => unfold add_pass_vars at h; exact Option.noConfusion h
    | cons pv0 pvs =>
      unfold add_pass_vars at h
      split at h
      · exact Option.noConfusion h
      · rename_i r1 heq1
        split at h
        · exact Option.noConfusion h
        · rename_i r2 heq2
          cases h
          rcases List.mem_cons.mp hpv with rfl | hpv2
          · exact add_pass_var_greedy_placed gpu st sv pv0 r1 heq1
          · exact ih pvs r1.1 r2 heq2 pv hpv2

/-- C6: whenever variable placement succeeds (a record is constructed and
the dispatch can succeed), every variable has a placement other than none,
and the final push-constant region size is a multiple of 4 bytes that does
not exceed the backend's push-constant budget. -/
theorem place_variables_totality (gpu : GpuLimits) (vars : List ShaderVar)
    (r : PlaceState × List PassVar)
    (h : place_variables gpu vars = some r) :
    (∀ pv ∈ r.2, pv.type ≠ PassVarType.none) ∧
    r.1.push_constants_size % 4 = 0 ∧
    r.1.push_constants_size ≤ gpu.max_pushc_size := by
  simp only [place_variables] at h
  split at h
  · exact Option.noConfusion h
  · rename_i r1 heq1
    split at h
    · exact Option.noConfusion h
    · rename_i r2 heq2
      cases h
      have hinv1 := add_pass_vars_inv gpu false vars _ _ r1 heq1 (dvd_zero 4) (Nat.zero_le _)
      have hinv2 := add_pass_vars_inv gpu true vars r1.2 r1.1 r2 heq2 hinv1.1 hinv1.2
      have heqsz : align2 r2.1.push_constants_size 4 = r2.1.push_constants_size :=
        align2_four_eq _ hinv2.1
      refine ⟨add_pass_vars_greedy_placed gpu vars r1.2 r1.1 r2 heq2, ?_, ?_⟩
      · simp only [heqsz]
        omega
      · simp only [heqsz]
        exact hinv2.2

/-- C6 witness: on a Vulkan backend with a 128-byte push-constant budget, a
dynamic vec4 and a static mat3 are both placed (in push constants), with a
64-byte region: a 4-byte multiple within the budget. -/
theorem place_variables_totality_witness :
    (∀ pv ∈ pvs_c6, pv.type ≠ PassVarType.none) ∧
    st_c6.push_constants_size % 4 = 0 ∧
    st_c6.push_constants_size ≤ gpu_c6.max_pushc_size :=
  place_variables_totality gpu_c6 vars_c6 (st_c6, pvs_c6) (by decide)

/-- C10: after each of the three dispatch entry points returns — whether the
dispatch succeeded or failed — the caller's shader handle is NULL and the
accumulator's identity has been appended to the root's shader pool; and
aborting a handle that is already NULL is a no-op that changes no state. -/
theorem dispatch_entry_points_recycle :
    (∀ (dp : Dispatch) (sh : Shader) (target : TexParams)
        (blend : Option (Nat × Nat × Nat × Nat)) (load ok : Bool) (prog : List Nat),
      (pl_dispatch_finish dp sh target blend load ok prog).2.1 = Option.none ∧
      sh.id ∈ (pl_dispatch_finish dp sh target blend load ok prog).1.shaders) ∧
    (∀ (dp : Dispatch) (sh : Shader) (w hgt : Nat) (ok : Bool) (prog : List Nat),
      (pl_dispatch_compute dp sh w hgt ok prog).2.1 = Option.none ∧
      sh.id ∈ (pl_dispatch_compute dp sh w hgt ok prog).1.shaders) ∧
    (∀ (dp : Dispatch) (sh : Shader) (target : TexParams)
        (blend : Option (Nat × Nat × Nat × Nat)) (vt vs na vi : Nat)
        (ok : Bool) (prog : List Nat),
      (pl_dispatch_vertex dp sh target blend vt vs na vi ok prog).2.1 = Option.none ∧
      sh.id ∈ (pl_dispatch_vertex dp sh target blend vt vs na vi ok prog).1.shaders) ∧
    (∀ dp : Dispatch, pl_dispatch_abort dp Option.none = (dp, Option.none)) := by
  refine ⟨?_, ?_, ?_, fun dp => rfl⟩
  · intro dp sh target blend load ok prog
    constructor
    · rfl
    · simp [pl_dispatch_finish, pl_dispatch_abort]
  · intro dp sh w hgt ok prog
    constructor
    · rfl
    · simp [pl_dispatch_compute, pl_dispatch_abort]
  · intro dp sh target blend vt vs na vi ok prog
    constructor
    · rfl
    · simp [pl_dispatch_vertex, pl_dispatch_abort]
